import Mathlib

/-!
Shallow embedding of the dictationer core (clipboard paster, audio capture
session, recording controller, hotkey monitor, reformatting controller) and
proofs of the specification's testable properties against it.

External effects (OS clipboard, microphone device, keyboard injection, the
cloud reformatter) are modelled as explicit environments recording the outcome
of each primitive call; Python exceptions from those primitives become
explicit failure outcomes.  Concurrency is modelled as event interleaving:
each thread's visible actions (key hook callbacks, an armed timer waking up,
a worker thread finishing) are events consumed by a step function.
-/

/-! ### Clipboard Paster (src/dictationer/paster.py) -/

/-- Outcomes of the OS-level primitives used by `ClipboardPaster`:
`pasteResult` is what `pyperclip.paste()` returns (`none` = it raised),
`copyOk t` says whether `pyperclip.copy(t)` succeeds, and `sendOk` whether
`keyboard.send("ctrl+v")` succeeds. -/
structure PasteEnv where
  pasteResult : Option String
  copyOk : String → Bool
  sendOk : Bool

/-- Mutable state of a `ClipboardPaster` instance: the `_saved_clipboard`
field (None initially, set by `save_clipboard`). -/
structure ClipboardPaster where
  saved : Option String
deriving DecidableEq, Repr

/-- The four workflow steps of `paste_text`, recorded in attempt order. -/
inductive PasteAction
  | save
  | set
  | paste
  | restore
deriving DecidableEq, Repr

/-- `ClipboardPaster.save_clipboard`: stores `pyperclip.paste()` into
`_saved_clipboard` and returns True; on exception sets it to None and
returns False. -/
def ClipboardPaster.save_clipboard (env : PasteEnv) (_s : ClipboardPaster) :
    Bool × ClipboardPaster :=
  match env.pasteResult with
  | some c => (true, ⟨some c⟩)
  | none => (false, ⟨none⟩)

/-- `ClipboardPaster.set_clipboard`: `pyperclip.copy(text)`, False on
exception. -/
def ClipboardPaster.set_clipboard (env : PasteEnv) (text : String) : Bool :=
  env.copyOk text

/-- `ClipboardPaster.restore_clipboard`: False if nothing saved, otherwise
copies the saved content back. -/
def ClipboardPaster.restore_clipboard (env : PasteEnv) (s : ClipboardPaster) :
    Bool :=
  match s.saved with
  | none => false
  | some c => env.copyOk c

/-- `ClipboardPaster.simulate_paste`: `keyboard.send("ctrl+v")`, False on
exception. -/
def ClipboardPaster.simulate_paste (env : PasteEnv) : Bool :=
  env.sendOk

/-- `ClipboardPaster.paste_text`: the complete workflow.  `text = none`
models a Python `None` argument (both `None` and `""` fail the `if not text`
guard).  Returns the Boolean result, the final paster state, and the list of
steps attempted, in order.  Mirrors the source exactly: an empty text returns
False with no steps; a failed save aborts; a failed set aborts (no
restoration in the source here); a failed paste simulation attempts
restoration and returns False; otherwise restoration is attempted and the
result is True even if restoration fails. -/
def ClipboardPaster.paste_text (env : PasteEnv) (s : ClipboardPaster)
    (text : Option String) : Bool × ClipboardPaster × List PasteAction :=
  if text = none ∨ text = some "" then (false, s, [])
  else
    let t := text.getD ""
    let r1 := ClipboardPaster.save_clipboard env s
    if !r1.1 then (false, r1.2, [.save])
    else if !(ClipboardPaster.set_clipboard env t) then
      (false, r1.2, [.save, .set])
    else if !(ClipboardPaster.simulate_paste env) then
      -- "Still try to restore clipboard" before returning failure
      let _ := ClipboardPaster.restore_clipboard env r1.2
      (false, r1.2, [.save, .set, .paste, .restore])
    else
      -- wait restore_delay, then restore; a restore failure is only logged
      let _ := ClipboardPaster.restore_clipboard env r1.2
      (true, r1.2, [.save, .set, .paste, .restore])

/-! ### Audio Capture Session (src/dictationer/audio.py) -/

/-- Observable state of an `AudioRecorder`: the `_recording` flag, the
`_frames` buffer (each frame a list of bytes), a count of capture threads
spawned by `start_recording`, and a count of `_save_recording` invocations
performed by `stop_recording`. -/
structure AudioRecorder where
  recording : Bool
  frames : List (List Nat)
  threadsSpawned : Nat
  flushes : Nat
deriving DecidableEq, Repr

/-- `AudioRecorder.start_recording`: under `_thread_lock`, a no-op when
already recording; otherwise sets `_recording`, clears `_frames`, and spawns
the capture thread. -/
def AudioRecorder.start_recording (r : AudioRecorder) : AudioRecorder :=
  if r.recording then r
  else { r with recording := true, frames := [],
                threadsSpawned := r.threadsSpawned + 1 }

/-- `AudioRecorder.stop_recording`: under `_thread_lock`, a no-op when not
recording; otherwise clears `_recording`, joins the thread, and calls
`_save_recording` (counted by `flushes`). -/
def AudioRecorder.stop_recording (r : AudioRecorder) : AudioRecorder :=
  if !r.recording then r
  else { r with recording := false, flushes := r.flushes + 1 }

/-- Outcome of one `stream.read` call in the capture loop: a chunk of bytes,
or an exception. -/
inductive ReadResult
  | ok (chunk : List Nat)
  | err
deriving DecidableEq, Repr

/-- Behaviour of the microphone device for one run of the capture thread:
whether `pyaudio` open succeeds, and the sequence of read outcomes delivered
while `_recording` stays true (the list ending means the flag was observed
false, exiting the loop normally). -/
structure Device where
  openOk : Bool
  reads : List ReadResult
deriving DecidableEq, Repr

/-- The chunks appended before the first read error (the whole list if no
read errs). -/
def chunksBeforeErr : List ReadResult → List (List Nat)
  | [] => []
  | .ok c :: rest => c :: chunksBeforeErr rest
  | .err :: _ => []

/-- The capture loop of `AudioRecorder._record`: reads chunks while the flag
holds, appending each to the accumulated frames; a read exception logs and
`break`s the loop. -/
def captureLoop : List ReadResult → List (List Nat) → List (List Nat)
  | [], acc => acc
  | .ok c :: rest, acc => captureLoop rest (acc ++ [c])
  | .err :: _, acc => acc

/-- `AudioRecorder._record`: the capture thread body.  If opening the device
raises, the `except` clause forces `_recording := false`.  Otherwise the
capture loop runs; a read error only breaks the loop (the `except` around the
whole body is not reached), so `_recording` is left untouched.  The `finally`
clause (closing the stream) does not change the modelled state.  The function
is total: no error propagates out of the thread. -/
def AudioRecorder.recordThread (r : AudioRecorder) (dev : Device) :
    AudioRecorder :=
  if dev.openOk then
    { r with frames := captureLoop dev.reads r.frames }
  else
    { r with recording := false }

/-- `chunk_size = 1024` samples per read, as configured in `__init__`. -/
def chunk_size : Nat := 1024

/-- `sample_rate = 16000` Hz, as configured in `__init__`. -/
def sample_rate : Nat := 16000

/-- Bytes per sample for `pyaudio.paInt16`. -/
def bytesPerSample : Nat := 2

/-- `AudioRecorder._save_recording`: with an empty frame buffer nothing is
written (`none`); otherwise the duration is computed as
`len(frames) * chunk_size / sample_rate` and the written audio data is
`b"".join(frames)` — the concatenation of the frames in append order. -/
def save_recording (frames : List (List Nat)) : Option (ℚ × List Nat) :=
  if frames = [] then none
  else some (((frames.length : ℚ) * (chunk_size : ℚ)) / (sample_rate : ℚ),
             frames.flatten)

/-! ### Hotkey Monitor (src/dictationer/keyboard.py) -/

/-- State of a `KeyboardRecorder` relevant to `toggle_recording`: the
`recording_state` flag.  The registered callback is passed explicitly, as an
optional function that either returns normally or raises. -/
structure KeyboardRecorder where
  recording_state : Bool
deriving DecidableEq, Repr

/-- `KeyboardRecorder.toggle_recording`: under `_thread_lock`, flips
`recording_state`; if a callback is set it is invoked with the new state
inside a try/except that logs any exception.  The return value pairs the new
monitor state with the value the callback was invoked with (if any); the
whole call is wrapped in `Except` to make visible that nothing escapes to the
caller (the hook's execution context). -/
def KeyboardRecorder.toggle_recording (k : KeyboardRecorder)
    (callback : Option (Bool → Except Unit Unit)) :
    Except Unit (KeyboardRecorder × Option Bool) :=
  let k' : KeyboardRecorder := ⟨!k.recording_state⟩
  match callback with
  | some f =>
    match f k'.recording_state with
    | .ok _ => .ok (k', some k'.recording_state)
    | .error _ => .ok (k', some k'.recording_state)  -- caught and logged
  | none => .ok (k', none)

/-! ### Recording Controller (src/dictationer/main.py) -/

/-- The externally visible shutdown actions performed by
`RecordingController.stop`. -/
inductive ShutdownAction
  | stopRecording
  | stopKeyboard
  | cleanupAudio
deriving DecidableEq, Repr

/-- State of the `RecordingController`: the `_running` flag (guarded by
`_shutdown_lock`) and the owned `AudioRecorder`. -/
structure RecordingController where
  running : Bool
  audio : AudioRecorder
deriving DecidableEq, Repr

/-- `AudioRecorder.cleanup`: stops any active recording, then cleans up the
processor (no modelled state change). -/
def AudioRecorder.cleanup (r : AudioRecorder) : AudioRecorder :=
  if r.recording then r.stop_recording else r

/-- `RecordingController.stop`: under `_shutdown_lock`, returns immediately
if `_running` is already false; otherwise clears `_running`, stops an active
recording, stops keyboard monitoring, and cleans up audio resources.  Returns
the new state and the list of shutdown actions performed. -/
def RecordingController.stop (c : RecordingController) :
    RecordingController × List ShutdownAction :=
  if !c.running then (c, [])
  else
    let stopRec := c.audio.recording
    let audio1 := if stopRec then c.audio.stop_recording else c.audio
    let audio2 := audio1.cleanup
    ({ running := false, audio := audio2 },
     (if stopRec then [ShutdownAction.stopRecording] else []) ++
       [ShutdownAction.stopKeyboard, ShutdownAction.cleanupAudio])

/-! ### Gemini reformatter (src/dictationer/reformatter/gemini.py) -/

/-- Outcomes of the external calls made by one run of
`GeminiReformatter.process`: the clipboard content saved at the start of
`copy_selected_text` (`pyperclip.paste()`), the clipboard content observed
after the simulated Ctrl+C (`""` = nothing selected), whether the
`copy_selected_text` try-block raises, the Gemini API result (`none` = API
error or unparseable response), whether the unprotected
`pyperclip.copy(self._original_clipboard)` restore call raises, and the
result of `ClipboardPaster.paste_text` on the reformatted text. -/
structure GeminiEnv where
  originalClipboard : String
  copiedText : String
  copyRaises : Bool
  reformatResult : Option String
  restoreRaises : Bool
  pasteOk : Bool
deriving DecidableEq, Repr

/-- `GeminiReformatter.copy_selected_text`: saves the original clipboard,
simulates Ctrl+C, and reads the clipboard; returns `none` when nothing was
copied or when any step raised (all exceptions are caught inside). -/
def GeminiReformatter.copy_selected_text (env : GeminiEnv) : Option String :=
  if env.copyRaises then none
  else if env.copiedText = "" then none
  else some env.copiedText

/-- `GeminiReformatter.reformat_with_gemini`: returns the reformatted text or
`none` on any API/parsing failure; its own exceptions are caught, and the
hide-status callback runs in a `finally`. -/
def GeminiReformatter.reformat_with_gemini (env : GeminiEnv) :
    Option String :=
  env.reformatResult

/-- `GeminiReformatter.process`: the full workflow.  Copy failure or empty
selection returns False.  A Gemini failure restores the original clipboard —
via a `pyperclip.copy` call that is *not* wrapped in try/except (gemini.py
line 311), so it can raise out of `process` (modelled as `.error ()`), but
only when the saved original clipboard is truthy (non-empty).  Otherwise the
paster is invoked; on paste failure the safety restore is wrapped in
try/except-pass, so `process` returns the paste result normally. -/
def GeminiReformatter.process (env : GeminiEnv) : Except Unit Bool :=
  match GeminiReformatter.copy_selected_text env with
  | none => .ok false
  | some _ =>
    match GeminiReformatter.reformat_with_gemini env with
    | none =>
      if env.originalClipboard ≠ "" ∧ env.restoreRaises then .error ()
      else .ok false
    | some r =>
      if r = "" then
        if env.originalClipboard ≠ "" ∧ env.restoreRaises then .error ()
        else .ok false
      else
        -- success := paster.paste_text(reformatted_text, 0.5);
        -- the step-4 safety restore is inside try/except pass
        .ok env.pasteOk

/-! ### Reformatting Controller (src/dictationer/reformatter/controller.py) -/

/-- An armed hold timer: the time `on_ctrl_press` armed it and the duration
its thread sleeps (`time.sleep(self.hold_duration)` reads the field when the
timer thread starts). -/
structure HoldTimer where
  armedAt : ℚ
  sleepDur : ℚ
deriving DecidableEq, Repr

/-- State of a `ReformatterController`: `hold_duration`, `ctrl_pressed`,
`press_start_time`, the `monitoring_hotkey` gate, the
`_monitoring_disabled_warned` debounce flag, whether a Gemini reformatter was
constructed, the queue of armed (not yet evaluated) timers, whether a Gemini
worker thread is in flight, and a count of `_trigger_reformatting`
invocations (workflow fires). -/
structure RState where
  hold_duration : ℚ
  ctrl_pressed : Bool
  press_start_time : Option ℚ
  monitoring_hotkey : Bool
  warned : Bool
  hasGemini : Bool
  timers : List HoldTimer
  inFlight : Bool
  fires : Nat
deriving DecidableEq, Repr

/-- Python truthiness of the `press_start_time` field (`None` and `0.0` are
falsy), as tested by `if self.ctrl_pressed and self.press_start_time:`. -/
def timeTruthy : Option ℚ → Bool
  | none => false
  | some t => t ≠ 0

/-- `ReformatterController._trigger_reformatting`: closes the gate and, when
a Gemini reformatter exists, starts the worker thread (the workflow becomes
in flight); without one, the gate is reopened immediately.  `fires` counts
the invocations. -/
def ReformatterController.trigger_reformatting (s : RState) : RState :=
  let s1 := { s with monitoring_hotkey := false, fires := s.fires + 1 }
  if s1.hasGemini then { s1 with inFlight := true }
  else { s1 with monitoring_hotkey := true, warned := false }

/-- The body of `run_gemini_reformatting` (the worker thread): runs
`process`; any exception is caught, and the `finally` clause reopens the gate
and resets the warned flag unconditionally.  Also returns the observed
outcome (`some b` = `process` returned `b`, `none` = it raised). -/
def ReformatterController.run_gemini_reformatting (s : RState)
    (env : GeminiEnv) : RState × Option Bool :=
  match GeminiReformatter.process env with
  | .ok b =>
    ({ s with inFlight := false, monitoring_hotkey := true, warned := false },
     some b)
  | .error _ =>
    ({ s with inFlight := false, monitoring_hotkey := true, warned := false },
     none)

/-- `ReformatterController.on_ctrl_press` for a KEY_DOWN of the monitored
key: ignored (with a once-per-closed-period warning) while the gate is
closed; ignored while `ctrl_pressed` is already set; otherwise records the
press start time and arms a one-shot timer whose thread sleeps the current
`hold_duration`. -/
def ReformatterController.on_ctrl_press (s : RState) (t : ℚ) : RState :=
  if !s.monitoring_hotkey then
    if !s.warned then { s with warned := true } else s
  else if s.ctrl_pressed then s
  else
    { s with ctrl_pressed := true, press_start_time := some t,
             timers := s.timers ++ [⟨t, s.hold_duration⟩] }

/-- `ReformatterController.on_ctrl_release` for a KEY_UP of the monitored
key: clears `ctrl_pressed` and `press_start_time` when pressed. -/
def ReformatterController.on_ctrl_release (s : RState) : RState :=
  if s.ctrl_pressed then
    { s with ctrl_pressed := false, press_start_time := none }
  else s

/-- `ReformatterController.check_hold_duration`, evaluated when the oldest
armed timer's thread wakes at time `t` (after sleeping its `sleepDur`): if
the key is still pressed and the elapsed hold `t - press_start_time` is at
least the *current* `hold_duration` field, the reformatting workflow is
triggered and the press state is reset; otherwise nothing happens.  The timer
is consumed either way. -/
def ReformatterController.check_hold_duration (s : RState) (t : ℚ) : RState :=
  match s.timers with
  | [] => s
  | _ :: rest =>
    let s0 := { s with timers := rest }
    if s0.ctrl_pressed && timeTruthy s0.press_start_time then
      if t - s0.press_start_time.getD 0 ≥ s0.hold_duration then
        let s1 := ReformatterController.trigger_reformatting s0
        { s1 with ctrl_pressed := false, press_start_time := none }
      else s0
    else s0

/-- `ReformatterController.set_hold_duration`: overwrites the single
`hold_duration` field. -/
def ReformatterController.set_hold_duration (s : RState) (d : ℚ) : RState :=
  { s with hold_duration := d }

/-- Events interleaved from the keyboard-hook thread, the timer threads, and
the Gemini worker thread. -/
inductive REvent
  | down (t : ℚ)
  | up (t : ℚ)
  | timerEval (t : ℚ)
  | workflowDone (env : GeminiEnv)
  | setDuration (d : ℚ)

/-- One step of the reformatting controller under an event. -/
def rstep (s : RState) : REvent → RState
  | .down t => ReformatterController.on_ctrl_press s t
  | .up _ => ReformatterController.on_ctrl_release s
  | .timerEval t => ReformatterController.check_hold_duration s t
  | .workflowDone env =>
    if s.inFlight then (ReformatterController.run_gemini_reformatting s env).1
    else s
  | .setDuration d => ReformatterController.set_hold_duration s d

/-- Run a sequence of events. -/
def runEvents (s : RState) (es : List REvent) : RState :=
  es.foldl rstep s

/-- The idle controller as built by `__init__(hold_duration)` with a Gemini
reformatter available. -/
def initR (d : ℚ) : RState :=
  { hold_duration := d, ctrl_pressed := false, press_start_time := none,
    monitoring_hotkey := true, warned := false, hasGemini := true,
    timers := [], inFlight := false, fires := 0 }

/-! ### Theorems -/

/-- Helper: the capture loop equals the input frames followed by the chunks
read before the first error. -/
theorem captureLoop_eq (reads : List ReadResult) (acc : List (List Nat)) :
    captureLoop reads acc = acc ++ chunksBeforeErr reads := by
  induction reads generalizing acc with
  | nil => simp [captureLoop, chunksBeforeErr]
  | cons hd tl ih =>
    cases hd with
    | ok c => simp [captureLoop, chunksBeforeErr, ih, List.append_assoc]
    | err => simp [captureLoop, chunksBeforeErr]

/-- Helper: the length of a flattened list of equal-length lists. -/
theorem flatten_length_const (k : Nat) :
    ∀ l : List (List Nat), (∀ f ∈ l, f.length = k) →
      l.flatten.length = l.length * k
  | [], _ => by simp
  | hd :: tl, h => by
    have h1 : hd.length = k := h hd (by simp)
    have h2 : tl.flatten.length = tl.length * k :=
      flatten_length_const k tl (fun f hf => h f (by simp [hf]))
    simp only [List.flatten_cons, List.length_append, List.length_cons, h1, h2]
    ring

/-- C10: `paste_text` with empty text (Python `None` or `""`) returns False
immediately, leaves the paster state unchanged, and attempts none of the
four workflow steps. -/
theorem paste_text_empty_noop (env : PasteEnv) (s : ClipboardPaster) :
    ClipboardPaster.paste_text env s none = (false, s, []) ∧
    ClipboardPaster.paste_text env s (some "") = (false, s, []) := by
  constructor <;> simp [ClipboardPaster.paste_text]

/-- C2 counterexample: with a clipboard whose save succeeds
(`pyperclip.paste()` returns "old") but whose `pyperclip.copy` always fails,
`paste_text "hello"` returns False after attempting only the save and set
steps — restoration is NOT attempted, contradicting the claim that any
post-save failure attempts restoration before returning. -/
theorem paste_text_set_failure_skips_restore :
    (ClipboardPaster.paste_text ⟨some "old", fun _ => false, true⟩ ⟨none⟩
        (some "hello")).1 = false ∧
    (ClipboardPaster.paste_text ⟨some "old", fun _ => false, true⟩ ⟨none⟩
        (some "hello")).2.2 = [PasteAction.save, PasteAction.set] ∧
    PasteAction.restore ∉
      (ClipboardPaster.paste_text ⟨some "old", fun _ => false, true⟩ ⟨none⟩
        (some "hello")).2.2 := by
  decide

/-- C2 amended: for non-empty text, a failure of the initial save aborts
before any clipboard mutation — `paste_text` returns False having attempted
only the save step (no set, no paste, no restoration); after a successful
save, if a later step fails then `paste_text` returns False, and restoration
is attempted if and only if the failing step was the paste simulation (a
`set_clipboard` failure aborts without attempting restoration). -/
theorem paste_text_restore_on_paste_failure (env : PasteEnv)
    (s : ClipboardPaster) (t : String) (ht : t ≠ "") :
    (env.pasteResult = none →
      ClipboardPaster.paste_text env s (some t) =
        (false, ⟨none⟩, [PasteAction.save])) ∧
    (env.pasteResult.isSome = true →
      env.copyOk t = false ∨ env.sendOk = false →
      (ClipboardPaster.paste_text env s (some t)).1 = false ∧
      (PasteAction.restore ∈ (ClipboardPaster.paste_text env s (some t)).2.2 ↔
        env.copyOk t = true)) := by
  constructor
  · intro hnone
    simp [ClipboardPaster.paste_text, ClipboardPaster.save_clipboard, hnone,
          ht]
  · intro hsave hfail
    obtain ⟨c, hc⟩ := Option.isSome_iff_exists.mp hsave
    cases hcopy : env.copyOk t with
    | false =>
      simp [ClipboardPaster.paste_text, ClipboardPaster.save_clipboard, hc,
            ClipboardPaster.set_clipboard, hcopy, ht]
    | true =>
      have hsend : env.sendOk = false := by
        rcases hfail with h | h
        · rw [hcopy] at h; exact absurd h (by simp)
        · exact h
      simp [ClipboardPaster.paste_text, ClipboardPaster.save_clipboard, hc,
            ClipboardPaster.set_clipboard, ClipboardPaster.simulate_paste,
            hcopy, hsend, ht]

/-- Witness for the amended C2 theorem at concrete inputs exercising both
clauses: an environment whose save fails (aborts with only the save step
attempted), and one where save and set succeed but the paste simulation
fails (returns False). -/
theorem paste_text_restore_witness :
    ("hi" : String) ≠ "" ∧
    ClipboardPaster.paste_text ⟨none, fun _ => true, true⟩ ⟨none⟩
        (some "hi") = (false, ⟨none⟩, [PasteAction.save]) ∧
    (ClipboardPaster.paste_text ⟨some "x", fun _ => true, false⟩ ⟨none⟩
        (some "hi")).1 = false :=
  ⟨by decide,
   (paste_text_restore_on_paste_failure ⟨none, fun _ => true, true⟩
      ⟨none⟩ "hi" (by decide)).1 rfl,
   ((paste_text_restore_on_paste_failure ⟨some "x", fun _ => true, false⟩
      ⟨none⟩ "hi" (by decide)).2 rfl (Or.inr rfl)).1⟩

/-- C3 counterexample: with the device opening successfully and the first
chunk read raising, the capture loop is aborted but `_recording` is left
true — the read-error path does not force the active flag back to false,
contradicting the claim. -/
theorem record_read_error_leaves_flag :
    (AudioRecorder.recordThread ⟨true, [], 1, 0⟩
        ⟨true, [ReadResult.err]⟩).recording = true := by
  decide

/-- C3 amended: the capture thread never propagates a device error (it is a
total function).  A device-open failure forces `_recording := false` and
touches nothing else; when the device opens, the loop appends exactly the
chunks read before the first read error (a read error aborts the loop) and
leaves `_recording` and all other fields untouched. -/
theorem record_thread_error_handling (r : AudioRecorder) (dev : Device) :
    AudioRecorder.recordThread r dev =
      if dev.openOk then
        { r with frames := r.frames ++ chunksBeforeErr dev.reads }
      else { r with recording := false } := by
  unfold AudioRecorder.recordThread
  cases dev.openOk <;> simp [captureLoop_eq]

/-- C4: starting while already active is a no-op (frames kept, no extra
thread), and stopping while inactive is a no-op (no flush, no state change).
Every active state has the form `{r with recording := true}` and every
inactive one `{r with recording := false}`, so this covers all states
reachable by any start/stop sequence. -/
theorem start_stop_noop (r : AudioRecorder) :
    AudioRecorder.start_recording { r with recording := true } =
      { r with recording := true } ∧
    AudioRecorder.stop_recording { r with recording := false } =
      { r with recording := false } := by
  constructor <;>
    simp [AudioRecorder.start_recording, AudioRecorder.stop_recording]

/-- C5: a non-empty buffer of N frames, each holding `chunk_size` samples of
`bytesPerSample` bytes, is saved with duration `N * chunk_size / sample_rate`
seconds, and the written data is the concatenation of the frames in append
order, of exactly `N * chunk_size * bytesPerSample` bytes. -/
theorem save_recording_roundtrip (frames : List (List Nat))
    (hne : frames ≠ [])
    (hlen : ∀ f ∈ frames, f.length = chunk_size * bytesPerSample) :
    save_recording frames =
      some (((frames.length : ℚ) * (chunk_size : ℚ)) / (sample_rate : ℚ),
            frames.flatten) ∧
    frames.flatten.length = frames.length * (chunk_size * bytesPerSample) := by
  refine ⟨by simp [save_recording, hne], ?_⟩
  exact flatten_length_const _ frames hlen

/-- Witness for C5 at a single 2048-byte frame. -/
theorem save_recording_witness :
    ([List.replicate 2048 (0 : Nat)] ≠ []) ∧
    [List.replicate 2048 (0 : Nat)].flatten.length =
      [List.replicate 2048 (0 : Nat)].length *
        (chunk_size * bytesPerSample) :=
  ⟨List.cons_ne_nil _ _,
   (save_recording_roundtrip [List.replicate 2048 0] (List.cons_ne_nil _ _)
      (by intro f hf
          rw [List.mem_singleton] at hf
          rw [hf, List.length_replicate]
          rfl)).2⟩

/-- C6: invoking `RecordingController.stop` twice in a row performs the
shutdown sequence exactly once: the first call performs it, the second call
observes the cleared `_running` flag, changes nothing, and performs no
further actions; across both calls the keyboard stop and the audio cleanup
each occur exactly once. -/
theorem controller_stop_idempotent (c : RecordingController)
    (h : c.running = true) :
    (RecordingController.stop (RecordingController.stop c).1).1 =
      (RecordingController.stop c).1 ∧
    (RecordingController.stop (RecordingController.stop c).1).2 = [] ∧
    ((RecordingController.stop c).2 ++
        (RecordingController.stop (RecordingController.stop c).1).2).count
      ShutdownAction.stopKeyboard = 1 ∧
    ((RecordingController.stop c).2 ++
        (RecordingController.stop (RecordingController.stop c).1).2).count
      ShutdownAction.cleanupAudio = 1 := by
  cases hrec : c.audio.recording <;>
    simp [RecordingController.stop, h, hrec, List.count_cons,
          List.count_append]

/-- Witness for C6 at a running controller with an active recording. -/
theorem controller_stop_witness :
    ((⟨true, ⟨true, [[1]], 1, 0⟩⟩ : RecordingController).running = true) ∧
    (RecordingController.stop
        (RecordingController.stop ⟨true, ⟨true, [[1]], 1, 0⟩⟩).1).2 = [] :=
  ⟨rfl, (controller_stop_idempotent ⟨true, ⟨true, [[1]], 1, 0⟩⟩ rfl).2.1⟩

/-- C9: `toggle_recording` always returns normally (`.ok`, never an escaping
exception), flips `recording_state` to the negation of its previous value,
and invokes the callback — when one is registered — with the new value; this
holds for every callback behaviour, including one that raises, so a callback
failure neither propagates nor undoes the flip. -/
theorem toggle_recording_flips (k : KeyboardRecorder)
    (callback : Option (Bool → Except Unit Unit)) :
    KeyboardRecorder.toggle_recording k callback =
      .ok (⟨!k.recording_state⟩,
           callback.map fun _ => !k.recording_state) := by
  cases callback with
  | none => rfl
  | some f =>
    cases hf : f (!k.recording_state) <;>
      simp [KeyboardRecorder.toggle_recording, hf]

/-- C1: after the reformatting worker completes — on every path of
`GeminiReformatter.process` (successful reformat-and-paste, empty-selection
abort, cloud/network failure returning `none`, paste failure, or an
exception raised inside the workflow), the `finally` clause has reopened the
monitoring gate: `monitoring_hotkey` is true, the warned debounce flag is
reset, and no workflow is in flight. -/
theorem gate_reopened_after_workflow (s : RState) (env : GeminiEnv) :
    (ReformatterController.run_gemini_reformatting s env).1.monitoring_hotkey
        = true ∧
    (ReformatterController.run_gemini_reformatting s env).1.warned = false ∧
    (ReformatterController.run_gemini_reformatting s env).1.inFlight
        = false := by
  unfold ReformatterController.run_gemini_reformatting
  cases GeminiReformatter.process env <;> simp

/-- Helper: running an event list decomposes as a fold over appends. -/
theorem runEvents_append (s : RState) (l1 l2 : List REvent) :
    runEvents s (l1 ++ l2) = runEvents (runEvents s l1) l2 := by
  simp [runEvents]

/-- Helper: key-repeat KEY_DOWN events are ignored while the gate is open
and `ctrl_pressed` is already set. -/
theorem repeats_ignored (reps : List ℚ) (s : RState)
    (hgate : s.monitoring_hotkey = true) (hp : s.ctrl_pressed = true) :
    runEvents s (reps.map REvent.down) = s := by
  induction reps with
  | nil => rfl
  | cons r rs ih =>
    have hstep : rstep s (REvent.down r) = s := by
      simp [rstep, ReformatterController.on_ctrl_press, hgate, hp]
    calc runEvents s ((r :: rs).map REvent.down)
        = runEvents (rstep s (REvent.down r)) (rs.map REvent.down) := rfl
      _ = runEvents s (rs.map REvent.down) := by rw [hstep]
      _ = s := ih

/-- C7 counterexample: hold duration 2; the key goes down at t=1 and is
never released.  The armed timer fires at t=3 (held for 2 ≥ 2 seconds); the
worker thread completes (here the copy step fails, so the workflow aborts
early) and reopens the gate; a key-repeat KEY_DOWN at t=3.5 then finds
`ctrl_pressed` reset and the gate open, is treated as a fresh press, and
arms a second timer, which fires again at t=5.5 (3.5 + 2 ≤ 5.5).  One
physical hold, two workflow fires — refuting "the workflow fires exactly
once for that hold, even if additional key-down (key-repeat) events arrive
while it is held". -/
theorem hold_can_fire_twice :
    (runEvents (initR 2) [REvent.down 1, REvent.timerEval 3,
      REvent.workflowDone ⟨"", "", true, none, false, false⟩,
      REvent.down (7/2), REvent.timerEval (11/2)]).fires = 2 := by
  norm_num [runEvents, rstep, ReformatterController.on_ctrl_press, initR,
    ReformatterController.set_hold_duration,
    ReformatterController.check_hold_duration, timeTruthy,
    ReformatterController.trigger_reformatting,
    ReformatterController.run_gemini_reformatting,
    GeminiReformatter.process, GeminiReformatter.copy_selected_text,
    GeminiReformatter.reformat_with_gemini]

/-- C7 amended: up to the completion of the triggered workflow the claim
holds: if the key is released strictly before the hold duration elapses (so
the release is handled before the armed timer evaluates), the workflow never
fires, however many key-repeat KEY_DOWN events arrived during the hold; if
the key is still held when the armed timer evaluates at `te` with
`te - t0 ≥ d`, the workflow fires exactly once, key-repeat events being
ignored while `ctrl_pressed` is set.  Once the workflow completes and
reopens the gate, however, a further key-repeat during the same physical
hold starts a new detection cycle and can fire again (see the
counterexample), so "exactly once per hold" holds only until the workflow
completes.  `t0 ≠ 0` reflects that `time.time()` is never zero. -/
theorem hold_detection_amended (d t0 tr te : ℚ) (reps : List ℚ)
    (ht0 : t0 ≠ 0) (_hrel : tr - t0 < d) (hte : te - t0 ≥ d) :
    (runEvents (initR d) (REvent.down t0 :: (reps.map REvent.down ++
        [REvent.up tr, REvent.timerEval te]))).fires = 0 ∧
    (runEvents (initR d) (REvent.down t0 :: (reps.map REvent.down ++
        [REvent.timerEval te]))).fires = 1 := by
  have hs1 : rstep (initR d) (REvent.down t0) =
      { initR d with ctrl_pressed := true, press_start_time := some t0,
                     timers := [⟨t0, d⟩] } := by
    simp [rstep, ReformatterController.on_ctrl_press, initR]
  have key : ∀ tail : List REvent,
      runEvents (initR d) (REvent.down t0 :: (reps.map REvent.down ++ tail))
        = runEvents { initR d with ctrl_pressed := true,
                                   press_start_time := some t0,
                                   timers := [⟨t0, d⟩] } tail := by
    intro tail
    calc runEvents (initR d)
          (REvent.down t0 :: (reps.map REvent.down ++ tail))
        = runEvents (rstep (initR d) (REvent.down t0))
            (reps.map REvent.down ++ tail) := rfl
      _ = runEvents { initR d with ctrl_pressed := true,
                                   press_start_time := some t0,
                                   timers := [⟨t0, d⟩] }
            (reps.map REvent.down ++ tail) := by rw [hs1]
      _ = runEvents (runEvents { initR d with ctrl_pressed := true,
                                              press_start_time := some t0,
                                              timers := [⟨t0, d⟩] }
            (reps.map REvent.down)) tail := runEvents_append ..
      _ = runEvents { initR d with ctrl_pressed := true,
                                   press_start_time := some t0,
                                   timers := [⟨t0, d⟩] } tail := by
          rw [repeats_ignored reps _ rfl rfl]
  refine ⟨?_, ?_⟩
  · rw [key [REvent.up tr, REvent.timerEval te]]
    simp [runEvents, rstep, ReformatterController.on_ctrl_release,
      ReformatterController.check_hold_duration, initR]
  · rw [key [REvent.timerEval te]]
    simp [runEvents, rstep, ReformatterController.check_hold_duration,
      timeTruthy, ht0, initR, ReformatterController.trigger_reformatting,
      ge_iff_le, hte]

/-- Witness for the amended C7 theorem: d = 2, press at 1, release at 2
(strictly before 1 + 2), timer evaluation at 3, no repeats: no fire. -/
theorem hold_detection_witness :
    ((1 : ℚ) ≠ 0) ∧ ((2 : ℚ) - 1 < 2) ∧ ((3 : ℚ) - 1 ≥ 2) ∧
    (runEvents (initR 2) (REvent.down 1 :: (([] : List ℚ).map REvent.down ++
        [REvent.up 2, REvent.timerEval 3]))).fires = 0 :=
  ⟨by norm_num, by norm_num, by norm_num,
   (hold_detection_amended 2 1 2 3 [] (by norm_num) (by norm_num)
      (by norm_num)).1⟩

/-- C8 counterexample: hold duration 2; the key goes down at t=1, arming a
timer whose thread sleeps 2 seconds; `set_hold_duration 5` is called while
it sleeps; at t=3 the timer wakes with the key still held after 2 seconds —
the full duration in effect when it was armed — yet the workflow does not
fire (`fires = 0`), because `check_hold_duration` compares the elapsed hold
against the *updated* field (2 ≥ 5 fails).  The already-armed timer is
therefore affected by the update, refuting the claim that it "is evaluated
against the hold duration that was in effect when it was armed, unaffected
by the update". -/
theorem set_hold_duration_hits_armed_timer :
    (runEvents (initR 2) [REvent.down 1, REvent.setDuration 5,
      REvent.timerEval 3]).fires = 0 := by
  norm_num [runEvents, rstep, ReformatterController.on_ctrl_press, initR,
    ReformatterController.set_hold_duration,
    ReformatterController.check_hold_duration, timeTruthy,
    ReformatterController.trigger_reformatting]

/-- C8 amended: `set_hold_duration d'` overwrites the single
`hold_duration` field, which future arm operations read — but so does the
evaluation of an already-armed timer: the armed timer still wakes after
sleeping the old duration `d` (hence `te - t0 ≥ d`), and then fires iff the
elapsed hold meets the *updated* duration `d'`. -/
theorem set_hold_duration_amended (d d' t0 te : ℚ)
    (ht0 : t0 ≠ 0) (_hte : te - t0 ≥ d) :
    (runEvents (initR d) [REvent.down t0, REvent.setDuration d',
        REvent.timerEval te]).fires = (if te - t0 ≥ d' then 1 else 0) ∧
    (runEvents (initR d) [REvent.down t0, REvent.setDuration d',
        REvent.timerEval te]).hold_duration = d' := by
  by_cases h : te - t0 ≥ d'
  · rw [if_pos h]
    simp [runEvents, rstep, ReformatterController.on_ctrl_press, initR,
      ReformatterController.set_hold_duration,
      ReformatterController.check_hold_duration, timeTruthy, ht0,
      ReformatterController.trigger_reformatting, ge_iff_le,
      ge_iff_le.mp h]
  · rw [if_neg h]
    simp [runEvents, rstep, ReformatterController.on_ctrl_press, initR,
      ReformatterController.set_hold_duration,
      ReformatterController.check_hold_duration, timeTruthy, ht0,
      ReformatterController.trigger_reformatting, ge_iff_le, h]

/-- Witness for the amended C8 theorem: d = 2, d' = 5, press at 1, timer
wakes at 3; the field afterwards holds the updated duration 5. -/
theorem set_hold_duration_amended_witness :
    ((1 : ℚ) ≠ 0) ∧ ((3 : ℚ) - 1 ≥ 2) ∧
    (runEvents (initR 2) [REvent.down 1, REvent.setDuration 5,
        REvent.timerEval 3]).hold_duration = 5 :=
  ⟨by norm_num, by norm_num,
   (set_hold_duration_amended 2 5 1 3 (by norm_num) (by norm_num)).2⟩
